import Mathlib

/-
Shallow embedding of pyrit/score/scorer.py (class Scorer), together with the
parts of its environment the file's behaviour depends on: the subset of Python
json.loads semantics relevant to judge responses, Python float() string
parsing, Python str() rendering and truthiness of parsed JSON values, and the
retry decorator and batch helper that the source imports.
-/

namespace PyritScorer

/-- JSON numbers as Python json.loads produces them: integer literals become a
Python int, literals with a fraction or exponent become a Python float (held
exactly as mantissa times a power of ten), and the non-standard tokens NaN,
Infinity, -Infinity (accepted by json.loads by default) become the
corresponding non-finite floats. -/
inductive JNum where
  | int (n : Int)
  | dec (m : Int) (e : Int)
  | posInf
  | negInf
  | nan

mutual
/-- Parsed JSON value, as Python json.loads yields it (dict, list, str, number,
bool, None). Arrays and objects are separate mutual inductives so that all
recursion over values is structural. -/
inductive JsonValue where
  | null
  | bool (b : Bool)
  | num (n : JNum)
  | str (s : String)
  | arr (elems : JsonElems)
  | obj (entries : JsonMembers)

/-- Elements of a JSON array. -/
inductive JsonElems where
  | nil
  | cons (head : JsonValue) (tail : JsonElems)

/-- Key/value entries of a JSON object, in source order. -/
inductive JsonMembers where
  | nil
  | cons (key : String) (value : JsonValue) (tail : JsonMembers)
end

/-- Dictionary lookup on a parsed JSON object. Python json.loads builds a dict
from the entries in order, so a duplicated key keeps its last occurrence; the
lookup therefore prefers the rightmost match. -/
def jget : JsonMembers → String → Option JsonValue
  | .nil, _ => none
  | .cons k v rest, key =>
    match jget rest key with
    | some w => some w
    | none => if k = key then some v else none

/-- Python dict.get with default None: an absent key and an explicit JSON null
are both Python None, so both are modelled as JsonValue.null. -/
def jgetPy (entries : JsonMembers) (key : String) : JsonValue :=
  (jget entries key).getD .null

/-- Whitespace characters that JSON (and Python json.loads) skips between
tokens. -/
def isJsonWs (c : Char) : Bool :=
  c = ' ' ∨ c = '\t' ∨ c = '\n' ∨ c = '\r'

/-- Drop leading JSON whitespace. -/
def skipWs : List Char → List Char
  | c :: cs => if isJsonWs c then skipWs cs else c :: cs
  | [] => []

/-- Value of a hexadecimal digit, if the character is one. -/
def hexVal (c : Char) : Option Nat :=
  if '0' ≤ c ∧ c ≤ '9' then some (c.toNat - '0'.toNat)
  else if 'a' ≤ c ∧ c ≤ 'f' then some (c.toNat - 'a'.toNat + 10)
  else if 'A' ≤ c ∧ c ≤ 'F' then some (c.toNat - 'A'.toNat + 10)
  else none

/-- Single-character JSON string escapes. -/
def escChar : Char → Option Char
  | '"' => some '"'
  | '\\' => some '\\'
  | '/' => some '/'
  | 'b' => some (Char.ofNat 8)
  | 'f' => some (Char.ofNat 12)
  | 'n' => some '\n'
  | 'r' => some '\r'
  | 't' => some '\t'
  | _ => none

/-- Body of a JSON string literal, after the opening quote: returns the decoded
characters and the input remaining after the closing quote. Python json.loads
in its default strict mode rejects raw control characters inside strings.
Surrogate pairing of two adjacent escapes is not modelled (no claim depends on
it); each escape decodes to the character of its code point. -/
def parseStringBody : List Char → Option (List Char × List Char)
  | [] => none
  | '"' :: rest => some ([], rest)
  | '\\' :: 'u' :: h1 :: h2 :: h3 :: h4 :: rest =>
    match hexVal h1, hexVal h2, hexVal h3, hexVal h4 with
    | some a, some b, some c, some d =>
      (parseStringBody rest).map fun p =>
        (Char.ofNat (((a * 16 + b) * 16 + c) * 16 + d) :: p.1, p.2)
    | _, _, _, _ => none
  | '\\' :: c :: rest =>
    match escChar c with
    | some ec => (parseStringBody rest).map fun p => (ec :: p.1, p.2)
    | none => none
  | c :: rest =>
    if c.toNat < 32 then none
    else (parseStringBody rest).map fun p => (c :: p.1, p.2)

/-- Longest prefix of decimal digits. -/
def takeDigits (cs : List Char) : List Char × List Char :=
  cs.span (fun c => c.isDigit)

/-- Natural number value of a digit string. -/
def digitsToNat (ds : List Char) : Nat :=
  ds.foldl (fun a c => a * 10 + (c.toNat - '0'.toNat)) 0

/-- JSON number literal, following the grammar Python json.loads uses:
-? (0 | [1-9][0-9]*) (. [0-9]+)? ([eE] [+-]? [0-9]+)?. An integer literal
yields a Python int; a fraction or exponent yields a Python float, represented
exactly as mantissa and decimal exponent. -/
def parseNumber (cs : List Char) : Option (JNum × List Char) :=
  let signed := match cs with
    | '-' :: rest => (true, rest)
    | _ => (false, cs)
  let neg := signed.1
  let cs1 := signed.2
  match cs1 with
  | c :: _ =>
    if !c.isDigit then none
    else
      let ip := takeDigits cs1
      if ip.1.length > 1 ∧ ip.1.headD '0' = '0' then none
      else
        let intDigits := ip.1
        let afterInt := ip.2
        let fracPart : Option (List Char × List Char) :=
          match afterInt with
          | '.' :: cs2 =>
            let fp := takeDigits cs2
            if fp.1.isEmpty then none else some (fp.1, fp.2)
          | _ => some ([], afterInt)
        match fracPart with
        | none => none
        | some (fracDigits, afterFrac) =>
          let expPart : Option (Option Int × List Char) :=
            match afterFrac with
            | 'e' :: cs3 =>
              let es := match cs3 with
                | '+' :: cs4 => (1, cs4)
                | '-' :: cs4 => (-1, cs4)
                | _ => ((1 : Int), cs3)
              let ed := takeDigits es.2
              if ed.1.isEmpty then none
              else some (some (es.1 * (digitsToNat ed.1 : Int)), ed.2)
            | 'E' :: cs3 =>
              let es := match cs3 with
                | '+' :: cs4 => (1, cs4)
                | '-' :: cs4 => (-1, cs4)
                | _ => ((1 : Int), cs3)
              let ed := takeDigits es.2
              if ed.1.isEmpty then none
              else some (some (es.1 * (digitsToNat ed.1 : Int)), ed.2)
            | _ => some (none, afterFrac)
          match expPart with
          | none => none
          | some (expVal, afterExp) =>
            let mantNat : Nat := digitsToNat (intDigits ++ fracDigits)
            let mant : Int := if neg then -(mantNat : Int) else (mantNat : Int)
            let value : JNum :=
              match fracDigits, expVal with
              | [], none => .int mant
              | _, _ => .dec mant ((expVal.getD 0) - (fracDigits.length : Int))
            some (value, afterExp)
  | [] => none

mutual
/-- One JSON value, fuel-bounded so all recursion is structural. The caller
supplies fuel larger than the input length, which is always sufficient (each
recursive descent consumes input). Leading whitespace must already have been
skipped. -/
def parseValue : Nat → List Char → Option (JsonValue × List Char)
  | 0, _ => none
  | _ + 1, [] => none
  | fuel + 1, cs =>
    match cs with
    | 't' :: 'r' :: 'u' :: 'e' :: rest => some (.bool true, rest)
    | 'f' :: 'a' :: 'l' :: 's' :: 'e' :: rest => some (.bool false, rest)
    | 'n' :: 'u' :: 'l' :: 'l' :: rest => some (.null, rest)
    | 'N' :: 'a' :: 'N' :: rest => some (.num .nan, rest)
    | 'I' :: 'n' :: 'f' :: 'i' :: 'n' :: 'i' :: 't' :: 'y' :: rest =>
      some (.num .posInf, rest)
    | '-' :: 'I' :: 'n' :: 'f' :: 'i' :: 'n' :: 'i' :: 't' :: 'y' :: rest =>
      some (.num .negInf, rest)
    | '"' :: rest =>
      (parseStringBody rest).map fun p => (.str (String.mk p.1), p.2)
    | '[' :: rest =>
      match skipWs rest with
      | ']' :: rest2 => some (.arr .nil, rest2)
      | rest2 => parseElems fuel rest2
    | '\x7b' :: rest =>
      match skipWs rest with
      | '\x7d' :: rest2 => some (.obj .nil, rest2)
      | rest2 => parseMembers fuel rest2
    | _ => (parseNumber cs).map fun p => (.num p.1, p.2)

/-- Elements of a non-empty JSON array: value (, value)* ]. -/
def parseElems : Nat → List Char → Option (JsonValue × List Char)
  | 0, _ => none
  | fuel + 1, cs =>
    match parseValue fuel cs with
    | none => none
    | some (v, rest) =>
      match skipWs rest with
      | ',' :: rest2 =>
        match parseElems fuel (skipWs rest2) with
        | some (.arr vs, rest3) => some (.arr (.cons v vs), rest3)
        | _ => none
      | ']' :: rest2 => some (.arr (.cons v .nil), rest2)
      | _ => none

/-- Entries of a non-empty JSON object: "key" : value (, "key" : value)* . -/
def parseMembers : Nat → List Char → Option (JsonValue × List Char)
  | 0, _ => none
  | fuel + 1, cs =>
    match cs with
    | '"' :: rest =>
      match parseStringBody rest with
      | none => none
      | some (key, rest2) =>
        match skipWs rest2 with
        | ':' :: rest3 =>
          match parseValue fuel (skipWs rest3) with
          | none => none
          | some (v, rest4) =>
            match skipWs rest4 with
            | ',' :: rest5 =>
              match parseMembers fuel (skipWs rest5) with
              | some (.obj kvs, rest6) =>
                some (.obj (.cons (String.mk key) v kvs), rest6)
              | _ => none
            | '\x7d' :: rest5 =>
              some (.obj (.cons (String.mk key) v .nil), rest5)
            | _ => none
        | _ => none
    | _ => none
end

/-- Python json.loads on a string: whitespace, a single JSON value, whitespace,
end of input; anything else raises json.JSONDecodeError, modelled as none. -/
def json_loads (s : String) : Option JsonValue :=
  let cs := skipWs s.toList
  match parseValue (2 * cs.length + 2) cs with
  | some (v, rest) => if skipWs rest = [] then some v else none
  | none => none

/-- Python str() of a parsed JSON number. CPython renders finite floats with
the shortest decimal that round-trips; this model renders the exact decimal
value in scientific notation instead. Either rendering is accepted by Python
float(), which is the only property downstream code relies on. -/
def JNum.pyStr : JNum → String
  | .int n => toString n
  | .dec m e => toString m ++ "e" ++ toString e
  | .posInf => "inf"
  | .negInf => "-inf"
  | .nan => "nan"

mutual
/-- Python str() of a parsed JSON value, as applied by the source to the
score_value field. Scalars are rendered exactly as Python does (strings
identically, True/False/None for bool and null); containers are rendered with
their delimiters and comma-separated contents — CPython additionally quotes
keys and string elements, which no claim depends on; what matters downstream
is that a container rendering never parses as a float, which bracket-first
rendering preserves. -/
def JsonValue.pyStr : JsonValue → String
  | .null => "None"
  | .bool true => "True"
  | .bool false => "False"
  | .num n => n.pyStr
  | .str s => s
  | .arr xs => "[" ++ pyStrElems xs ++ "]"
  | .obj kvs => "\x7b" ++ pyStrMembers kvs ++ "\x7d"

/-- Comma-separated rendering of array elements. -/
def pyStrElems : JsonElems → String
  | .nil => ""
  | .cons x .nil => x.pyStr
  | .cons x xs => x.pyStr ++ ", " ++ pyStrElems xs

/-- Comma-separated rendering of object entries. -/
def pyStrMembers : JsonMembers → String
  | .nil => ""
  | .cons k v .nil => k ++ ": " ++ v.pyStr
  | .cons k v kvs => k ++ ": " ++ v.pyStr ++ ", " ++ pyStrMembers kvs
end

/-- Zero test on a parsed JSON number (Python truthiness of the value). -/
def JNum.isZero : JNum → Bool
  | .int n => n = 0
  | .dec m _ => m = 0
  | _ => false

/-- Emptiness of a JSON array. -/
def JsonElems.isNil : JsonElems → Bool
  | .nil => true
  | _ => false

/-- Emptiness of a JSON object. -/
def JsonMembers.isNil : JsonMembers → Bool
  | .nil => true
  | _ => false

/-- Python truthiness of a parsed JSON value: None, False, zero, and empty
strings/lists/dicts are falsy, everything else truthy. -/
def JsonValue.pyTruthy : JsonValue → Bool
  | .null => false
  | .bool b => b
  | .num n => !n.isZero
  | .str s => !s.isEmpty
  | .arr xs => !xs.isNil
  | .obj kvs => !kvs.isNil

/-- Python type name of a parsed JSON value, as it appears in an
AttributeError raised by attribute access on it. -/
def JsonValue.pyTypeName : JsonValue → String
  | .null => "NoneType"
  | .bool _ => "bool"
  | .num (.int _) => "int"
  | .num _ => "float"
  | .str _ => "str"
  | .arr _ => "list"
  | .obj _ => "dict"

/-- Python truthiness of the optional category argument (a str or None):
truthy exactly when it is a non-empty string. -/
def categoryArgTruthy : Option String → Bool
  | none => false
  | some s => !s.isEmpty

/-- Digit run with single underscores allowed between digits, as Python
float() accepts; stops before an underscore not followed by a digit. -/
def scanDigitsUnd : List Char → List Char
  | '_' :: c :: cs => if c.isDigit then scanDigitsUnd cs else '_' :: c :: cs
  | c :: cs => if c.isDigit then scanDigitsUnd cs else c :: cs
  | [] => []

/-- A digitpart of the Python float() grammar: at least one digit, with
underscores allowed between digits. Returns the remaining input. -/
def scanDigitPart : List Char → Option (List Char)
  | c :: cs => if c.isDigit then some (scanDigitsUnd cs) else none
  | [] => none

/-- Whitespace Python float() strips around its argument. -/
def isPyWs (c : Char) : Bool :=
  c = ' ' ∨ c = '\t' ∨ c = '\n' ∨ c = '\r' ∨ c = '\x0b' ∨ c = '\x0c'

/-- Case-insensitive literal match, returning the rest of the input. -/
def dropCI : List Char → List Char → Option (List Char)
  | [], cs => some cs
  | p :: ps, c :: cs => if c.toLower = p then dropCI ps cs else none
  | _ :: _, [] => none

/-- Optional exponent then end of input, for the Python float() grammar. -/
def scanExpEnd : List Char → Bool
  | [] => true
  | c :: cs =>
    if c = 'e' ∨ c = 'E' then
      let cs2 := match cs with
        | '+' :: r => r
        | '-' :: r => r
        | r => r
      match scanDigitPart cs2 with
      | some [] => true
      | _ => false
    else false

/-- Number body of the Python float() grammar:
digitpart [ "." [digitpart] ] [exponent]  or  "." digitpart [exponent]. -/
def scanFloatNumber (cs : List Char) : Bool :=
  match scanDigitPart cs with
  | some rest =>
    let rest2 := match rest with
      | '.' :: cs2 =>
        match scanDigitPart cs2 with
        | some r => r
        | none => cs2
      | _ => rest
    scanExpEnd rest2
  | none =>
    match cs with
    | '.' :: cs2 =>
      match scanDigitPart cs2 with
      | some rest => scanExpEnd rest
      | none => false
    | _ => false

/-- Python float(string) succeeds on the argument: optional whitespace, an
optional sign, then either inf/infinity/nan (case-insensitive) or a decimal
number with optional fraction and exponent (underscores between digits
allowed), then optional whitespace. Note that the non-finite tokens inf,
infinity and nan are accepted. -/
def python_float_parses (s : String) : Bool :=
  let cs := (skipPyWs s.toList).reverse
  let cs := (skipPyWs cs).reverse
  let cs := match cs with
    | '+' :: rest => rest
    | '-' :: rest => rest
    | rest => rest
  match dropCI ['i', 'n', 'f'] cs with
  | some rest =>
    match rest, dropCI ['i', 'n', 'i', 't', 'y'] rest with
    | [], _ => true
    | _, some [] => true
    | _, _ => false
  | none =>
    match dropCI ['n', 'a', 'n'] cs with
    | some [] => true
    | some _ => false
    | none => scanFloatNumber cs
where
  /-- Drop leading Python whitespace. -/
  skipPyWs : List Char → List Char
    | c :: cs => if isPyWs c then skipPyWs cs else c :: cs
    | [] => []

/-- Modelled from the spec: ScoreType (pyrit.models, not under src/) is the
enum of permitted score semantics, true_false or float_scale. -/
inductive ScoreType where
  | true_false
  | float_scale
deriving DecidableEq

/-- The category variable of send_chat_target_async after the line
category = category_response if category_response else category: either the
truthy JSON value taken from the response, or the caller's argument. -/
inductive PyCategory where
  | ofResponse (v : JsonValue)
  | ofArg (s : Option String)

/-- Modelled from the spec: UnvalidatedScore (pyrit.models, not under src/) is
the transient score record before domain validation; its fields are exactly
those populated by the constructor call in send_chat_target_async. An absent
optional field and an explicit JSON null are both Python None, modelled as
JsonValue.null. -/
structure UnvalidatedScore where
  raw_score_value : String
  score_value_description : JsonValue
  score_type : ScoreType
  score_category : PyCategory
  score_rationale : JsonValue
  scorer_class_identifier : List (String × Option String)
  score_metadata : JsonValue
  prompt_request_response_id : String
  task : Option String

/-- Modelled from the spec: PromptRequestPiece (pyrit.models, not under src/),
restricted to the fields this file touches. -/
structure PromptRequestPiece where
  role : String
  original_value : String
  converted_value : String

/-- Modelled from the spec: PromptRequestResponse (pyrit.models, not under
src/) carries the judge's response segments. -/
structure PromptRequestResponse where
  request_pieces : List PromptRequestPiece

/-- Exceptions send_chat_target_async can raise, by Python exception class.
invalidJson is InvalidJsonException (pyrit.exceptions); valueError is the bare
ValueError raised for an ambiguous category; attributeError is the
AttributeError escaping when .get is called on a non-dict parse result, whose
payload is only the Python type name of that result; indexError is the
IndexError from request_pieces[0] on an empty list. -/
inductive ScorerError where
  | invalidJson (message : String)
  | valueError (message : String)
  | attributeError (py_type : String)
  | indexError
deriving DecidableEq

/-- Modelled from the spec: the retry decorator pyrit_json_retry
(pyrit.exceptions.exception_classes, not under src/) retries only the
recoverable malformed-response failure, i.e. InvalidJsonException; every other
exception propagates immediately without consuming a retry attempt. -/
def ScorerError.retryable : ScorerError → Bool
  | .invalidJson _ => true
  | _ => false

/-- Message of the ValueError raised when both the caller and the judge
response supply a category. -/
def ambiguous_category_message : String :=
  "Category is present in the response and an argument"

/-- The AmbiguousCategory failure of the spec taxonomy, identified with the
concrete exception the source raises for it. -/
def ScorerError.isAmbiguousCategory : ScorerError → Bool
  | .valueError m => m = ambiguous_category_message
  | _ => false

/-- One attempt of send_chat_target_async, the body under the retry decorator
applied to one judge response: extract the first segment's converted text,
json.loads it, check the category invariant, read the required and optional
fields, build the UnvalidatedScore, and for float_scale check that the raw
value parses as a Python float. Argument evaluation order of the
UnvalidatedScore constructor call makes the score_value lookup fail before the
rationale lookup; the ambiguous-category ValueError fires before either. -/
def send_chat_target_once (scorer_type : ScoreType)
    (identifier : List (String × Option String))
    (response : PromptRequestResponse) (scored_prompt_id : String)
    (category : Option String) (task : Option String) :
    Except ScorerError UnvalidatedScore :=
  match response.request_pieces with
  | [] => .error .indexError
  | piece :: _ =>
    let response_json := piece.converted_value
    match json_loads response_json with
    | none => .error (.invalidJson ("Invalid JSON response: " ++ response_json))
    | some (.obj entries) =>
      let category_response := jgetPy entries "category"
      if category_response.pyTruthy && categoryArgTruthy category then
        .error (.valueError ambiguous_category_message)
      else
        let category2 : PyCategory :=
          if category_response.pyTruthy then .ofResponse category_response
          else .ofArg category
        match jget entries "score_value" with
        | none =>
          .error (.invalidJson ("Invalid JSON response, missing Key: " ++ response_json))
        | some score_value =>
          match jget entries "rationale" with
          | none =>
            .error (.invalidJson ("Invalid JSON response, missing Key: " ++ response_json))
          | some rationale =>
            let score : UnvalidatedScore :=
              { raw_score_value := score_value.pyStr
                score_value_description := jgetPy entries "description"
                score_type := scorer_type
                score_category := category2
                score_rationale := rationale
                scorer_class_identifier := identifier
                score_metadata := jgetPy entries "metadata"
                prompt_request_response_id := scored_prompt_id
                task := task }
            if scorer_type = ScoreType.float_scale
                ∧ python_float_parses score.raw_score_value = false then
              .error (.invalidJson
                ("Invalid JSON response, score_value should be a float not this: "
                  ++ score.raw_score_value))
            else
              .ok score
    | some v => .error (.attributeError v.pyTypeName)

/-- Modelled from the spec: the bounded retry loop the decorator wraps around
the body. budget is the remaining number of retries, attempt counts the retry
attempts consumed so far (re-invocations after the first call); op gives the
outcome of each successive attempt, since the judge may answer differently
each time. Returns the final outcome together with the total number of retry
attempts consumed: a success returns immediately, a retryable failure is
re-attempted while budget remains, any other failure propagates at once. -/
def retry_json (op : Nat → Except ScorerError UnvalidatedScore) :
    Nat → Nat → Except ScorerError UnvalidatedScore × Nat
  | budget, attempt =>
    match op attempt, budget with
    | .ok s, _ => (.ok s, attempt)
    | .error e, 0 => (.error e, attempt)
    | .error e, b + 1 =>
      if e.retryable then retry_json op b (attempt + 1)
      else (.error e, attempt)

/-- send_chat_target_async: the retry decorator applied to the per-attempt
body, with responses the judge's answer to each successive attempt and
max_retries the retry budget of the decorator's policy. -/
def send_chat_target_async (scorer_type : ScoreType)
    (identifier : List (String × Option String))
    (responses : Nat → PromptRequestResponse) (scored_prompt_id : String)
    (category : Option String) (task : Option String) (max_retries : Nat) :
    Except ScorerError UnvalidatedScore × Nat :=
  retry_json
    (fun attempt =>
      send_chat_target_once scorer_type identifier (responses attempt)
        scored_prompt_id category task)
    max_retries 0

/-- scale_value_float from the source, with Python floats modelled as exact
rationals: 0 when the range is degenerate, otherwise the linear rescale. -/
def scale_value_float (value min_value max_value : ℚ) : ℚ :=
  if max_value = min_value then 0
  else (value - min_value) / (max_value - min_value)

/-- A concrete scorer class, reduced to the data get_identifier reads from it:
its name and its defining module. -/
structure ScorerClass where
  name : String
  module : String
deriving DecidableEq

/-- An instance of a concrete scorer class; instance_state stands for all
per-instance state, none of which get_identifier reads. -/
structure ScorerInstance where
  cls : ScorerClass
  instance_state : Nat
deriving DecidableEq

/-- get_identifier from the source: a dict with the class name under __type__,
the defining module under __module__, and None under sub_identifier, modelled
as an association list. -/
def get_identifier (scorer : ScorerInstance) : List (String × Option String) :=
  [("__type__", some scorer.cls.name),
   ("__module__", some scorer.cls.module),
   ("sub_identifier", none)]

/-- Fuel-bounded splitting of a list into consecutive chunks; the callers pass
the list's length as fuel, which suffices whenever batch_size is positive. -/
def chunks_aux (batch_size : Nat) : Nat → List α → List (List α)
  | _, [] => []
  | 0, xs => [xs]
  | fuel + 1, xs => xs.take batch_size :: chunks_aux batch_size fuel (xs.drop batch_size)

/-- Consecutive chunks of at most batch_size elements, covering the list in
order. -/
def chunks (batch_size : Nat) (xs : List α) : List (List α) :=
  chunks_aux batch_size xs.length xs

/-- Modelled from the spec: batch_task_async (pyrit.common.batch_helper, not
under src/) splits the items into consecutive chunks of size batch_size, runs
the unit of work on every item of a chunk concurrently, and collects the
per-item results in input order. -/
def batch_task_async (f : α → β) (batch_size : Nat) (items : List α) : List β :=
  ((chunks batch_size items).map (fun chunk => chunk.map f)).flatten

/-- score_prompts_batch_async from the source: delegate to batch_task_async
with score_async as the unit of work, then flatten the per-prompt score lists
with a comprehension. -/
def score_prompts_batch_async (score_fn : α → List β) (batch_size : Nat)
    (prompts : List α) : List β :=
  (batch_task_async score_fn batch_size prompts).flatten

/-- Default of the batch_size parameter of score_prompts_batch_async in the
source. -/
def score_prompts_batch_default_batch_size : Nat := 10

/-- Modelled from the spec: within one chunk the scoring calls run
concurrently and may complete in any order; this records the completion
events, one per completed call, as pairs of the call's input index and its
result, listed in completion order. -/
def completion_events [Inhabited α] (f : α → β) (chunk : List α)
    (order : List Nat) : List (Nat × β) :=
  order.map fun i => (i, f (chunk.getD i default))

/-- Modelled from the spec: gather-style collection of completion events back
into input order — slot i of the output takes the result of the event with
input index i, independently of where that event sits in completion order. -/
def gather_by_index (events : List (Nat × β)) (n : Nat) : List (Option β) :=
  (List.range n).map fun i => (events.find? (fun e => e.1 == i)).map Prod.snd

/-- A single-segment judge response whose converted text is the given string. -/
def respOf (s : String) : PromptRequestResponse :=
  ⟨[⟨"assistant", "", s⟩]⟩

/-- Judge response text that carries a category while the caller also passes
one. -/
def amb_response_text : String := "\x7b\"category\": \"other\"\x7d"

/-- Judge response text whose score_value is the non-finite token inf. -/
def inf_response_text : String :=
  "\x7b\"score_value\": \"inf\", \"rationale\": \"r\"\x7d"

/-- Judge response text whose score_value does not parse as a float at all. -/
def bad_float_response_text : String :=
  "\x7b\"score_value\": \"zz\", \"rationale\": \"r\"\x7d"

/-- Judge response text with a well-formed float score_value and only the two
required keys. -/
def good_float_response_text : String :=
  "\x7b\"score_value\": \"0.8\", \"rationale\": \"y\"\x7d"

/-- Judge response text lacking the required rationale key. -/
def no_rationale_response_text : String := "\x7b\"score_value\": \"1\"\x7d"

/-- Judge response text whose rationale is present but empty. -/
def empty_rationale_response_text : String :=
  "\x7b\"score_value\": \"0.5\", \"rationale\": \"\"\x7d"

example : json_loads "\x7b\"a\": 1\x7d"
    = some (.obj (.cons "a" (.num (.int 1)) .nil)) := rfl
example : json_loads "[1, 2]"
    = some (.arr (.cons (.num (.int 1)) (.cons (.num (.int 2)) .nil))) := rfl
example : json_loads " \"hi\" " = some (.str "hi") := rfl
example : json_loads "not json" = none := rfl
example : json_loads "" = none := rfl
example : json_loads "01" = none := rfl
example : json_loads "-0.5e2" = some (.num (.dec (-5) 1)) := rfl
example : json_loads "Infinity" = some (.num .posInf) := rfl
example : json_loads "\x7b\"a\": 1" = none := rfl
example : python_float_parses "0.8" = true := rfl
example : python_float_parses " -1_0.5e-2 " = true := rfl
example : python_float_parses "inf" = true := rfl
example : python_float_parses "Infinity" = true := rfl
example : python_float_parses "nan" = true := rfl
example : python_float_parses "1." = true := rfl
example : python_float_parses ".5" = true := rfl
example : python_float_parses "" = false := rfl
example : python_float_parses "." = false := rfl
example : python_float_parses "abc" = false := rfl
example : python_float_parses "1e" = false := rfl
example : python_float_parses "1__0" = false := rfl
example : python_float_parses "[1]" = false := rfl
example : python_float_parses "True" = false := rfl
example : python_float_parses "None" = false := rfl

example :
    send_chat_target_once ScoreType.float_scale []
      ⟨[⟨"assistant", "", "\x7b\"score_value\": \"0.8\", \"rationale\": \"y\"\x7d"⟩]⟩
      "pid" none none
    = .ok ⟨"0.8", .null, .float_scale, .ofArg none, .str "y", [], .null, "pid", none⟩ := rfl
example :
    send_chat_target_once ScoreType.float_scale []
      ⟨[⟨"assistant", "", "oops"⟩]⟩ "pid" none none
    = .error (.invalidJson "Invalid JSON response: oops") := rfl
example :
    send_chat_target_once ScoreType.true_false []
      ⟨[⟨"assistant", "", "\x7b\"category\": \"other\"\x7d"⟩]⟩ "pid" (some "harm") none
    = .error (.valueError ambiguous_category_message) := rfl
example :
    send_chat_target_once ScoreType.true_false [] ⟨[⟨"assistant", "", "[1, 2]"⟩]⟩
      "pid" none none
    = .error (.attributeError "list") := rfl
example :
    send_chat_target_async ScoreType.true_false []
      (fun _ => ⟨[⟨"assistant", "", "nope"⟩]⟩) "pid" none none 2
    = (.error (.invalidJson "Invalid JSON response: nope"), 2) := rfl
example : chunks 10 (List.range 25) = [List.range 10, [10, 11, 12, 13, 14, 15, 16, 17, 18, 19], [20, 21, 22, 23, 24]] := by decide
example : score_prompts_batch_async (fun n => [n, n]) 2 [1, 2, 3] = [1, 1, 2, 2, 3, 3] := rfl

theorem chunks_aux_flatten (batch_size : Nat) :
    ∀ (fuel : Nat) (xs : List α), (chunks_aux batch_size fuel xs).flatten = xs := by
  intro fuel
  induction fuel with
  | zero =>
    intro xs
    cases xs <;> simp [chunks_aux]
  | succ fuel ih =>
    intro xs
    cases xs with
    | nil => simp [chunks_aux]
    | cons x l =>
      simp only [chunks_aux, List.flatten_cons, ih]
      exact List.take_append_drop _ _

theorem chunks_aux_map (f : α → β) (batch_size : Nat) :
    ∀ (fuel : Nat) (xs : List α),
      (chunks_aux batch_size fuel xs).map (List.map f)
        = chunks_aux batch_size fuel (xs.map f) := by
  intro fuel
  induction fuel with
  | zero =>
    intro xs
    cases xs <;> simp [chunks_aux]
  | succ fuel ih =>
    intro xs
    cases xs with
    | nil => simp [chunks_aux]
    | cons x l =>
      calc (chunks_aux batch_size (fuel + 1) (x :: l)).map (List.map f)
          = List.map f ((x :: l).take batch_size)
              :: (chunks_aux batch_size fuel ((x :: l).drop batch_size)).map (List.map f) := rfl
        _ = ((x :: l).map f).take batch_size
              :: chunks_aux batch_size fuel (((x :: l).map f).drop batch_size) := by
            rw [List.map_take, ih, List.map_drop]
        _ = chunks_aux batch_size (fuel + 1) ((x :: l).map f) := by
            simp only [List.map_cons]
            rfl

theorem chunks_aux_length_le (batch_size : Nat) (hbs : 1 ≤ batch_size) :
    ∀ (fuel : Nat) (xs : List α), xs.length ≤ fuel →
      ∀ c ∈ chunks_aux batch_size fuel xs, c.length ≤ batch_size := by
  intro fuel
  induction fuel with
  | zero =>
    intro xs hlen c hc
    cases xs with
    | nil => simp [chunks_aux] at hc
    | cons x l => simp at hlen
  | succ fuel ih =>
    intro xs hlen c hc
    cases xs with
    | nil => simp [chunks_aux] at hc
    | cons x l =>
      simp only [chunks_aux, List.mem_cons] at hc
      rcases hc with hc | hc
      · subst hc
        simp [List.length_take]
      · refine ih _ ?_ c hc
        simp only [List.length_drop, List.length_cons] at *
        omega

theorem find_completion_event [Inhabited α] (f : α → β) (chunk : List α) (i : Nat) :
    ∀ order : List Nat, i ∈ order →
      (completion_events f chunk order).find? (fun e => e.1 == i)
        = some (i, f (chunk.getD i default)) := by
  intro order
  induction order with
  | nil => intro h; simp at h
  | cons j rest ih =>
    intro h
    by_cases hj : j = i
    · subst hj
      simp [completion_events, List.find?_cons]
    · have hmem : i ∈ rest := by
        rcases List.mem_cons.mp h with h1 | h1
        · exact absurd h1.symm hj
        · exact h1
      simpa [completion_events, List.find?_cons, hj] using ih hmem

/-- The claim of C7: scale_value_float returns the linear rescale
(v - lo) / (hi - lo) whenever the range is non-degenerate, and exactly 0 when
lo = hi, for all inputs. -/
theorem scale_value_float_spec (value lo hi : ℚ) :
    (hi = lo → scale_value_float value lo hi = 0)
    ∧ (hi ≠ lo → scale_value_float value lo hi = (value - lo) / (hi - lo)) := by
  constructor
  · intro h
    simp [scale_value_float, h]
  · intro h
    simp [scale_value_float, h]

theorem scale_value_float_spec_witness :
    scale_value_float 3 2 2 = 0
    ∧ ((5 : ℚ) ≠ 1 ∧ scale_value_float 3 1 5 = (3 - 1) / (5 - 1)) :=
  ⟨(scale_value_float_spec 3 2 2).1 rfl,
   by decide,
   (scale_value_float_spec 3 1 5).2 (by decide)⟩

/-- The claim of C8: score_prompts_batch_async returns exactly the
left-to-right concatenation of the per-subject score lists produced by the
unit of work, in input order, and the batch_size parameter defaults to 10. -/
theorem score_prompts_batch_flattens_in_order (score_fn : α → List β)
    (batch_size : Nat) (prompts : List α) :
    score_prompts_batch_async score_fn batch_size prompts
        = (prompts.map score_fn).flatten
    ∧ score_prompts_batch_default_batch_size = 10 := by
  constructor
  · unfold score_prompts_batch_async batch_task_async chunks
    rw [chunks_aux_map, ← List.length_map prompts score_fn, chunks_aux_flatten]
  · rfl

/-- The claim of C9: get_identifier returns the concrete class name under
__type__, the defining module under __module__, and None under
sub_identifier, and two distinct instances of the same concrete scorer class
get identical identifiers, since the result reads only class-level data. -/
theorem get_identifier_structural (s s1 s2 : ScorerInstance) :
    (get_identifier s).lookup "__type__" = some (some s.cls.name)
    ∧ (get_identifier s).lookup "__module__" = some (some s.cls.module)
    ∧ (get_identifier s).lookup "sub_identifier" = some none
    ∧ (s1.cls = s2.cls → get_identifier s1 = get_identifier s2) := by
  refine ⟨rfl, rfl, rfl, ?_⟩
  intro h
  simp [get_identifier, h]

theorem get_identifier_structural_witness :
    (get_identifier ⟨⟨"SelfAskLikertScorer", "pyrit.score.self_ask_likert_scorer"⟩, 0⟩).lookup "__type__"
        = some (some "SelfAskLikertScorer")
    ∧ (ScorerInstance.mk ⟨"SelfAskLikertScorer", "pyrit.score.self_ask_likert_scorer"⟩ 0).cls
        = (ScorerInstance.mk ⟨"SelfAskLikertScorer", "pyrit.score.self_ask_likert_scorer"⟩ 1).cls
    ∧ get_identifier ⟨⟨"SelfAskLikertScorer", "pyrit.score.self_ask_likert_scorer"⟩, 0⟩
        = get_identifier ⟨⟨"SelfAskLikertScorer", "pyrit.score.self_ask_likert_scorer"⟩, 1⟩ :=
  ⟨(get_identifier_structural
      ⟨⟨"SelfAskLikertScorer", "pyrit.score.self_ask_likert_scorer"⟩, 0⟩
      ⟨⟨"SelfAskLikertScorer", "pyrit.score.self_ask_likert_scorer"⟩, 0⟩
      ⟨⟨"SelfAskLikertScorer", "pyrit.score.self_ask_likert_scorer"⟩, 1⟩).1,
   rfl,
   (get_identifier_structural
      ⟨⟨"SelfAskLikertScorer", "pyrit.score.self_ask_likert_scorer"⟩, 0⟩
      ⟨⟨"SelfAskLikertScorer", "pyrit.score.self_ask_likert_scorer"⟩, 0⟩
      ⟨⟨"SelfAskLikertScorer", "pyrit.score.self_ask_likert_scorer"⟩, 1⟩).2.2.2 rfl⟩

/-- The claim of C10: with a positive batch_size, every chunk the batch
executor dispatches holds at most batch_size items (so at most batch_size
scoring calls are in flight at once), the gather of a chunk's completion
events back into input order is independent of completion order, and the
flattened batch result is the concatenation of per-subject results in input
order. -/
theorem batch_executor_bounded_and_ordered [Inhabited α] (f : α → β)
    (score_fn : α → List γ) (batch_size : Nat) (xs : List α)
    (hbs : 1 ≤ batch_size) :
    (∀ c ∈ chunks batch_size xs, c.length ≤ batch_size)
    ∧ (∀ (chunk : List α) (order : List Nat),
        order.Perm (List.range chunk.length) →
        gather_by_index (completion_events f chunk order) chunk.length
          = (chunk.map f).map some)
    ∧ score_prompts_batch_async score_fn batch_size xs
        = (xs.map score_fn).flatten := by
  refine ⟨?_, ?_, ?_⟩
  · intro c hc
    exact chunks_aux_length_le batch_size hbs xs.length xs le_rfl c hc
  · intro chunk order hperm
    unfold gather_by_index
    have hpt : ∀ i ∈ List.range chunk.length,
        ((completion_events f chunk order).find? (fun e => e.1 == i)).map Prod.snd
          = (fun i => some (f (chunk.getD i default))) i := by
      intro i hi
      have hmem : i ∈ order := hperm.mem_iff.mpr hi
      rw [find_completion_event f chunk i order hmem]
      rfl
    rw [List.map_congr_left hpt]
    apply List.ext_getElem
    · simp
    · intro i h1 h2
      have hlen : i < chunk.length := by simpa using h2
      simp only [List.getElem_map, List.getElem_range]
      rw [List.getD_eq_getElem _ _ hlen]
  · unfold score_prompts_batch_async batch_task_async chunks
    rw [chunks_aux_map, ← List.length_map xs score_fn, chunks_aux_flatten]

theorem retry_json_fatal (op : Nat → Except ScorerError UnvalidatedScore)
    (e : ScorerError) (budget attempt : Nat) (h : op attempt = .error e)
    (hr : e.retryable = false) :
    retry_json op budget attempt = (.error e, attempt) := by
  cases budget <;> simp [retry_json, h, hr]

theorem retry_json_exhausts (op : Nat → Except ScorerError UnvalidatedScore)
    (e : ScorerError) (h : ∀ k, op k = .error e) (hr : e.retryable = true) :
    ∀ budget attempt, retry_json op budget attempt = (.error e, budget + attempt) := by
  intro budget
  induction budget with
  | zero => intro attempt; simp [retry_json, h]
  | succ b ih =>
    intro attempt
    have step : retry_json op (b + 1) attempt = retry_json op b (attempt + 1) := by
      simp [retry_json, h attempt, hr]
    rw [step, ih (attempt + 1)]
    have harith : b + (attempt + 1) = b + 1 + attempt := by omega
    rw [harith]

theorem send_once_invalid_json (st : ScoreType)
    (ident : List (String × Option String)) (response : PromptRequestResponse)
    (pid : String) (cat task : Option String)
    (piece : PromptRequestPiece) (rest : List PromptRequestPiece)
    (hpieces : response.request_pieces = piece :: rest)
    (hparse : json_loads piece.converted_value = none) :
    send_chat_target_once st ident response pid cat task
      = .error (.invalidJson ("Invalid JSON response: " ++ piece.converted_value)) := by
  simp [send_chat_target_once, hpieces, hparse]

theorem send_once_non_object (st : ScoreType)
    (ident : List (String × Option String)) (response : PromptRequestResponse)
    (pid : String) (cat task : Option String)
    (piece : PromptRequestPiece) (rest : List PromptRequestPiece) (v : JsonValue)
    (hpieces : response.request_pieces = piece :: rest)
    (hparse : json_loads piece.converted_value = some v)
    (hnotobj : ∀ entries, v ≠ JsonValue.obj entries) :
    send_chat_target_once st ident response pid cat task
      = .error (.attributeError v.pyTypeName) := by
  cases v with
  | obj entries => exact absurd rfl (hnotobj entries)
  | null => simp [send_chat_target_once, hpieces, hparse]
  | bool b => simp [send_chat_target_once, hpieces, hparse]
  | num n => simp [send_chat_target_once, hpieces, hparse]
  | str s => simp [send_chat_target_once, hpieces, hparse]
  | arr xs => simp [send_chat_target_once, hpieces, hparse]

theorem send_once_ambiguous (st : ScoreType)
    (ident : List (String × Option String)) (response : PromptRequestResponse)
    (pid : String) (cat task : Option String)
    (piece : PromptRequestPiece) (rest : List PromptRequestPiece)
    (entries : JsonMembers)
    (hpieces : response.request_pieces = piece :: rest)
    (hparse : json_loads piece.converted_value = some (.obj entries))
    (hamb : ((jgetPy entries "category").pyTruthy && categoryArgTruthy cat) = true) :
    send_chat_target_once st ident response pid cat task
      = .error (.valueError ambiguous_category_message) := by
  simp [send_chat_target_once, hpieces, hparse, hamb]

theorem send_once_missing_key (st : ScoreType)
    (ident : List (String × Option String)) (response : PromptRequestResponse)
    (pid : String) (cat task : Option String)
    (piece : PromptRequestPiece) (rest : List PromptRequestPiece)
    (entries : JsonMembers)
    (hpieces : response.request_pieces = piece :: rest)
    (hparse : json_loads piece.converted_value = some (.obj entries))
    (hnoamb : ((jgetPy entries "category").pyTruthy && categoryArgTruthy cat) = false)
    (hmiss : jget entries "score_value" = none ∨ jget entries "rationale" = none) :
    send_chat_target_once st ident response pid cat task
      = .error (.invalidJson
          ("Invalid JSON response, missing Key: " ++ piece.converted_value)) := by
  rcases hmiss with h | h
  · simp [send_chat_target_once, hpieces, hparse, hnoamb, h]
  · cases hsv : jget entries "score_value" with
    | none => simp [send_chat_target_once, hpieces, hparse, hnoamb, hsv]
    | some sv => simp [send_chat_target_once, hpieces, hparse, hnoamb, hsv, h]

theorem send_once_float_unparseable (st : ScoreType)
    (ident : List (String × Option String)) (response : PromptRequestResponse)
    (pid : String) (cat task : Option String)
    (piece : PromptRequestPiece) (rest : List PromptRequestPiece)
    (entries : JsonMembers) (sv rat : JsonValue)
    (hpieces : response.request_pieces = piece :: rest)
    (hparse : json_loads piece.converted_value = some (.obj entries))
    (hnoamb : ((jgetPy entries "category").pyTruthy && categoryArgTruthy cat) = false)
    (hsv : jget entries "score_value" = some sv)
    (hrat : jget entries "rationale" = some rat)
    (hst : st = ScoreType.float_scale)
    (hf : python_float_parses sv.pyStr = false) :
    send_chat_target_once st ident response pid cat task
      = .error (.invalidJson
          ("Invalid JSON response, score_value should be a float not this: "
            ++ sv.pyStr)) := by
  subst hst
  simp [send_chat_target_once, hpieces, hparse, hnoamb, hsv, hrat, hf]

theorem send_once_success (st : ScoreType)
    (ident : List (String × Option String)) (response : PromptRequestResponse)
    (pid : String) (cat task : Option String)
    (piece : PromptRequestPiece) (rest : List PromptRequestPiece)
    (entries : JsonMembers) (sv rat : JsonValue)
    (hpieces : response.request_pieces = piece :: rest)
    (hparse : json_loads piece.converted_value = some (.obj entries))
    (hnoamb : ((jgetPy entries "category").pyTruthy && categoryArgTruthy cat) = false)
    (hsv : jget entries "score_value" = some sv)
    (hrat : jget entries "rationale" = some rat)
    (hfl : st = ScoreType.float_scale → python_float_parses sv.pyStr = true) :
    send_chat_target_once st ident response pid cat task
      = .ok { raw_score_value := sv.pyStr
              score_value_description := jgetPy entries "description"
              score_type := st
              score_category := if (jgetPy entries "category").pyTruthy
                then .ofResponse (jgetPy entries "category") else .ofArg cat
              score_rationale := rat
              scorer_class_identifier := ident
              score_metadata := jgetPy entries "metadata"
              prompt_request_response_id := pid
              task := task } := by
  have hcond : ¬(st = ScoreType.float_scale ∧ python_float_parses sv.pyStr = false) := by
    rintro ⟨h1, h2⟩
    rw [hfl h1] at h2
    cases h2
  simp [send_chat_target_once, hpieces, hparse, hnoamb, hsv, hrat, hcond]

/-- C1: when the caller supplies a truthy (non-empty) category argument and
the parsed judge-response object also carries a truthy category field,
send_chat_target_async fails with the ambiguous-category ValueError — the
AmbiguousCategory failure of the spec — before any UnvalidatedScore is
produced, the failure is not retryable, and zero retry attempts are consumed
whatever the retry budget. -/
theorem ambiguous_category_fatal_unretried (st : ScoreType)
    (ident : List (String × Option String))
    (responses : Nat → PromptRequestResponse) (pid : String)
    (category task : Option String) (max_retries : Nat)
    (piece : PromptRequestPiece) (rest : List PromptRequestPiece)
    (entries : JsonMembers)
    (hpieces : (responses 0).request_pieces = piece :: rest)
    (hparse : json_loads piece.converted_value = some (.obj entries))
    (hcr : (jgetPy entries "category").pyTruthy = true)
    (hca : categoryArgTruthy category = true) :
    send_chat_target_async st ident responses pid category task max_retries
        = (.error (.valueError ambiguous_category_message), 0)
    ∧ (ScorerError.valueError ambiguous_category_message).isAmbiguousCategory = true
    ∧ (ScorerError.valueError ambiguous_category_message).retryable = false := by
  have honce : send_chat_target_once st ident (responses 0) pid category task
      = .error (.valueError ambiguous_category_message) :=
    send_once_ambiguous st ident (responses 0) pid category task piece rest
      entries hpieces hparse (by rw [hcr, hca]; rfl)
  exact ⟨retry_json_fatal _ _ max_retries 0 honce rfl, rfl, rfl⟩

theorem ambiguous_category_fatal_unretried_witness :
    ((fun _ : Nat => respOf amb_response_text) 0).request_pieces
        = ⟨"assistant", "", amb_response_text⟩ :: []
    ∧ json_loads amb_response_text
        = some (.obj (.cons "category" (.str "other") .nil))
    ∧ (jgetPy (.cons "category" (.str "other") .nil) "category").pyTruthy = true
    ∧ categoryArgTruthy (some "harm") = true
    ∧ send_chat_target_async ScoreType.true_false []
        (fun _ => respOf amb_response_text) "pid" (some "harm") none 3
        = (.error (.valueError ambiguous_category_message), 0) := by
  refine ⟨rfl, rfl, rfl, rfl, ?_⟩
  exact (ambiguous_category_fatal_unretried ScoreType.true_false []
    (fun _ => respOf amb_response_text) "pid" (some "harm") none 3
    ⟨"assistant", "", amb_response_text⟩ [] (.cons "category" (.str "other") .nil)
    rfl rfl rfl rfl).1

/-- C3: a judge response whose first segment's converted text is not valid
JSON yields the recoverable InvalidJsonException whose message is the fixed
prefix followed by the raw response text; the failure is retryable, and when
every attempt returns such a response the retry budget is fully consumed and
the same failure is surfaced. -/
theorem invalid_json_recoverable_with_raw_text (st : ScoreType)
    (ident : List (String × Option String))
    (responses : Nat → PromptRequestResponse) (pid : String)
    (cat task : Option String) (max_retries : Nat)
    (piece : PromptRequestPiece) (rest : List PromptRequestPiece)
    (hpieces : ∀ k, (responses k).request_pieces = piece :: rest)
    (hparse : json_loads piece.converted_value = none) :
    send_chat_target_once st ident (responses 0) pid cat task
        = .error (.invalidJson ("Invalid JSON response: " ++ piece.converted_value))
    ∧ (∃ pre, "Invalid JSON response: " ++ piece.converted_value
        = pre ++ piece.converted_value)
    ∧ (ScorerError.invalidJson
        ("Invalid JSON response: " ++ piece.converted_value)).retryable = true
    ∧ send_chat_target_async st ident responses pid cat task max_retries
        = (.error (.invalidJson ("Invalid JSON response: " ++ piece.converted_value)),
           max_retries) := by
  have honce : ∀ k, send_chat_target_once st ident (responses k) pid cat task
      = .error (.invalidJson ("Invalid JSON response: " ++ piece.converted_value)) :=
    fun k => send_once_invalid_json st ident (responses k) pid cat task piece rest
      (hpieces k) hparse
  refine ⟨honce 0, ⟨"Invalid JSON response: ", rfl⟩, rfl, ?_⟩
  unfold send_chat_target_async
  rw [retry_json_exhausts _ _ honce rfl max_retries 0, Nat.add_zero]

theorem invalid_json_recoverable_with_raw_text_witness :
    json_loads "not json" = none
    ∧ send_chat_target_async ScoreType.float_scale []
        (fun _ => respOf "not json") "pid" none none 2
        = (.error (.invalidJson "Invalid JSON response: not json"), 2) := by
  refine ⟨rfl, ?_⟩
  exact (invalid_json_recoverable_with_raw_text ScoreType.float_scale []
    (fun _ => respOf "not json") "pid" none none 2
    ⟨"assistant", "", "not json"⟩ [] (fun k => rfl) rfl).2.2.2

/-- C5: a judge response that is valid JSON but not a JSON object makes the
attribute access parsed_response.get fail with an AttributeError, which is
caught by neither the JSONDecodeError nor the KeyError handler: the surfaced
failure is not the recoverable InvalidJsonException, is not the
ambiguous-category failure, consumes zero retry attempts, and its payload is
only the Python type name of the parsed value, not the raw response text. -/
theorem non_object_response_escapes_handlers (st : ScoreType)
    (ident : List (String × Option String))
    (responses : Nat → PromptRequestResponse) (pid : String)
    (cat task : Option String) (max_retries : Nat)
    (piece : PromptRequestPiece) (rest : List PromptRequestPiece) (v : JsonValue)
    (hpieces : (responses 0).request_pieces = piece :: rest)
    (hparse : json_loads piece.converted_value = some v)
    (hnotobj : ∀ entries, v ≠ JsonValue.obj entries) :
    send_chat_target_async st ident responses pid cat task max_retries
        = (.error (.attributeError v.pyTypeName), 0)
    ∧ (ScorerError.attributeError v.pyTypeName).retryable = false
    ∧ (∀ m, ScorerError.attributeError v.pyTypeName ≠ .invalidJson m)
    ∧ (ScorerError.attributeError v.pyTypeName).isAmbiguousCategory = false := by
  have honce : send_chat_target_once st ident (responses 0) pid cat task
      = .error (.attributeError v.pyTypeName) :=
    send_once_non_object st ident (responses 0) pid cat task piece rest v
      hpieces hparse hnotobj
  exact ⟨retry_json_fatal _ _ max_retries 0 honce rfl, rfl,
    fun m h => ScorerError.noConfusion h, rfl⟩

theorem non_object_response_escapes_handlers_witness :
    json_loads "[1, 2]"
        = some (.arr (.cons (.num (.int 1)) (.cons (.num (.int 2)) .nil)))
    ∧ send_chat_target_async ScoreType.true_false []
        (fun _ => respOf "[1, 2]") "pid" none none 5
        = (.error (.attributeError "list"), 0)
    ∧ (ScorerError.attributeError "list").retryable = false := by
  refine ⟨rfl, ?_, rfl⟩
  exact (non_object_response_escapes_handlers ScoreType.true_false []
    (fun _ => respOf "[1, 2]") "pid" none none 5
    ⟨"assistant", "", "[1, 2]"⟩ []
    (.arr (.cons (.num (.int 1)) (.cons (.num (.int 2)) .nil)))
    rfl rfl (fun entries h => JsonValue.noConfusion h)).1

/-- C2 counterexample: with scorer_type float_scale and a judge response whose
score_value is the non-finite token inf, the call returns the UnvalidatedScore
instead of raising the InvalidResponseFormat failure the claim requires for
values that do not parse as a finite real: Python float() accepts inf. -/
theorem float_scale_accepts_inf_counterexample :
    python_float_parses "inf" = true
    ∧ send_chat_target_once ScoreType.float_scale [] (respOf inf_response_text)
        "pid" none none
      = .ok ⟨"inf", .null, .float_scale, .ofArg none, .str "r", [], .null, "pid", none⟩ :=
  ⟨rfl, rfl⟩

/-- C2 (amended): with scorer_type float_scale, on a judge-response object
with score_value and rationale present and the ambiguous-category condition
not triggered, the call fails with the recoverable not-a-float
InvalidJsonException exactly when the score_value rendered as a string does
not parse under Python float() syntax — which accepts the non-finite tokens
inf and nan — and otherwise returns the UnvalidatedScore. -/
theorem float_scale_parseability_check
    (ident : List (String × Option String)) (response : PromptRequestResponse)
    (pid : String) (cat task : Option String)
    (piece : PromptRequestPiece) (rest : List PromptRequestPiece)
    (entries : JsonMembers) (sv rat : JsonValue)
    (hpieces : response.request_pieces = piece :: rest)
    (hparse : json_loads piece.converted_value = some (.obj entries))
    (hnoamb : ((jgetPy entries "category").pyTruthy && categoryArgTruthy cat) = false)
    (hsv : jget entries "score_value" = some sv)
    (hrat : jget entries "rationale" = some rat) :
    (python_float_parses sv.pyStr = false →
      send_chat_target_once ScoreType.float_scale ident response pid cat task
        = .error (.invalidJson
            ("Invalid JSON response, score_value should be a float not this: "
              ++ sv.pyStr))
      ∧ (ScorerError.invalidJson
          ("Invalid JSON response, score_value should be a float not this: "
            ++ sv.pyStr)).retryable = true)
    ∧ (python_float_parses sv.pyStr = true →
      send_chat_target_once ScoreType.float_scale ident response pid cat task
        = .ok { raw_score_value := sv.pyStr
                score_value_description := jgetPy entries "description"
                score_type := .float_scale
                score_category := if (jgetPy entries "category").pyTruthy
                  then .ofResponse (jgetPy entries "category") else .ofArg cat
                score_rationale := rat
                scorer_class_identifier := ident
                score_metadata := jgetPy entries "metadata"
                prompt_request_response_id := pid
                task := task }) := by
  constructor
  · intro hf
    exact ⟨send_once_float_unparseable ScoreType.float_scale ident response pid
      cat task piece rest entries sv rat hpieces hparse hnoamb hsv hrat rfl hf, rfl⟩
  · intro hf
    exact send_once_success ScoreType.float_scale ident response pid cat task
      piece rest entries sv rat hpieces hparse hnoamb hsv hrat (fun _ => hf)

theorem float_scale_parseability_check_witness :
    python_float_parses "zz" = false
    ∧ send_chat_target_once ScoreType.float_scale [] (respOf bad_float_response_text)
        "pid" none none
      = .error (.invalidJson
          "Invalid JSON response, score_value should be a float not this: zz")
    ∧ python_float_parses "0.8" = true
    ∧ send_chat_target_once ScoreType.float_scale [] (respOf good_float_response_text)
        "pid" none none
      = .ok ⟨"0.8", .null, .float_scale, .ofArg none, .str "y", [], .null, "pid", none⟩ := by
  refine ⟨rfl, ?_, rfl, ?_⟩
  · exact ((float_scale_parseability_check [] (respOf bad_float_response_text)
      "pid" none none ⟨"assistant", "", bad_float_response_text⟩ []
      (.cons "score_value" (.str "zz") (.cons "rationale" (.str "r") .nil))
      (.str "zz") (.str "r") rfl rfl rfl rfl rfl).1 rfl).1
  · exact (float_scale_parseability_check [] (respOf good_float_response_text)
      "pid" none none ⟨"assistant", "", good_float_response_text⟩ []
      (.cons "score_value" (.str "0.8") (.cons "rationale" (.str "y") .nil))
      (.str "0.8") (.str "y") rfl rfl rfl rfl rfl).2 rfl

/-- C4 counterexample: a judge response that parses as a JSON object lacking
score_value does not always yield the recoverable missing-key
InvalidJsonException — when the caller also passed a category and the
response carries one, the ambiguous-category ValueError fires first, a
failure that is neither an InvalidJsonException nor retryable. -/
theorem missing_key_preempted_counterexample :
    json_loads amb_response_text
        = some (.obj (.cons "category" (.str "other") .nil))
    ∧ jget (.cons "category" (.str "other") .nil) "score_value" = none
    ∧ send_chat_target_once ScoreType.float_scale [] (respOf amb_response_text)
        "pid" (some "harm") none
      = .error (.valueError ambiguous_category_message)
    ∧ (ScorerError.valueError ambiguous_category_message).retryable = false
    ∧ (∀ m, ScorerError.valueError ambiguous_category_message
        ≠ ScorerError.invalidJson m) :=
  ⟨rfl, rfl, rfl, rfl, fun _ h => ScorerError.noConfusion h⟩

/-- C4 (amended): provided the ambiguous-category condition does not hold, a
judge-response object lacking score_value or lacking rationale yields the
recoverable missing-key InvalidJsonException whose message carries the raw
response text; and with both required keys present the call succeeds — the
optional keys category, description and metadata are not required — as long
as the float_scale parseability check passes. -/
theorem missing_required_key_recoverable (st : ScoreType)
    (ident : List (String × Option String)) (response : PromptRequestResponse)
    (pid : String) (cat task : Option String)
    (piece : PromptRequestPiece) (rest : List PromptRequestPiece)
    (entries : JsonMembers)
    (hpieces : response.request_pieces = piece :: rest)
    (hparse : json_loads piece.converted_value = some (.obj entries))
    (hnoamb : ((jgetPy entries "category").pyTruthy && categoryArgTruthy cat) = false) :
    ((jget entries "score_value" = none ∨ jget entries "rationale" = none) →
      send_chat_target_once st ident response pid cat task
        = .error (.invalidJson
            ("Invalid JSON response, missing Key: " ++ piece.converted_value))
      ∧ (∃ pre, "Invalid JSON response, missing Key: " ++ piece.converted_value
          = pre ++ piece.converted_value)
      ∧ (ScorerError.invalidJson
          ("Invalid JSON response, missing Key: " ++ piece.converted_value)).retryable
          = true)
    ∧ (∀ sv rat : JsonValue, jget entries "score_value" = some sv →
        jget entries "rationale" = some rat →
        (st = ScoreType.float_scale → python_float_parses sv.pyStr = true) →
        send_chat_target_once st ident response pid cat task
          = .ok { raw_score_value := sv.pyStr
                  score_value_description := jgetPy entries "description"
                  score_type := st
                  score_category := if (jgetPy entries "category").pyTruthy
                    then .ofResponse (jgetPy entries "category") else .ofArg cat
                  score_rationale := rat
                  scorer_class_identifier := ident
                  score_metadata := jgetPy entries "metadata"
                  prompt_request_response_id := pid
                  task := task }) := by
  constructor
  · intro hmiss
    exact ⟨send_once_missing_key st ident response pid cat task piece rest entries
      hpieces hparse hnoamb hmiss, ⟨"Invalid JSON response, missing Key: ", rfl⟩, rfl⟩
  · intro sv rat hsv hrat hfl
    exact send_once_success st ident response pid cat task piece rest entries
      sv rat hpieces hparse hnoamb hsv hrat hfl

theorem missing_required_key_recoverable_witness :
    json_loads no_rationale_response_text
        = some (.obj (.cons "score_value" (.str "1") .nil))
    ∧ jget (.cons "score_value" (.str "1") .nil) "rationale" = none
    ∧ send_chat_target_once ScoreType.true_false [] (respOf no_rationale_response_text)
        "pid" none none
      = .error (.invalidJson
          ("Invalid JSON response, missing Key: " ++ no_rationale_response_text))
    ∧ send_chat_target_once ScoreType.true_false [] (respOf good_float_response_text)
        "pid" none none
      = .ok ⟨"0.8", .null, .true_false, .ofArg none, .str "y", [], .null, "pid", none⟩ := by
  refine ⟨rfl, rfl, ?_, ?_⟩
  · exact ((missing_required_key_recoverable ScoreType.true_false []
      (respOf no_rationale_response_text) "pid" none none
      ⟨"assistant", "", no_rationale_response_text⟩ []
      (.cons "score_value" (.str "1") .nil) rfl rfl rfl).1 (Or.inr rfl)).1
  · exact (missing_required_key_recoverable ScoreType.true_false []
      (respOf good_float_response_text) "pid" none none
      ⟨"assistant", "", good_float_response_text⟩ []
      (.cons "score_value" (.str "0.8") (.cons "rationale" (.str "y") .nil))
      rfl rfl rfl).2 (.str "0.8") (.str "y") rfl rfl
      (fun h => ScoreType.noConfusion h)

/-- C6 counterexample: a judge response whose rationale is present but empty
does not make the pipeline fail — send_chat_target_async returns an
UnvalidatedScore whose score_rationale is the empty string. -/
theorem empty_rationale_score_counterexample :
    json_loads empty_rationale_response_text
        = some (.obj (.cons "score_value" (.str "0.5")
            (.cons "rationale" (.str "") .nil)))
    ∧ send_chat_target_once ScoreType.float_scale []
        (respOf empty_rationale_response_text) "pid" none none
      = .ok ⟨"0.5", .null, .float_scale, .ofArg none, .str "", [], .null, "pid", none⟩
    ∧ (JsonValue.str "").pyTruthy = false :=
  ⟨rfl, rfl, rfl⟩

/-- C6 (amended): the pipeline requires the rationale key to be present but
does not validate its value: whatever JSON value sits under rationale —
including the empty string and null — is returned unchanged as the
UnvalidatedScore's score_rationale. -/
theorem rationale_presence_not_validated (st : ScoreType)
    (ident : List (String × Option String)) (response : PromptRequestResponse)
    (pid : String) (cat task : Option String)
    (piece : PromptRequestPiece) (rest : List PromptRequestPiece)
    (entries : JsonMembers) (sv rat : JsonValue)
    (hpieces : response.request_pieces = piece :: rest)
    (hparse : json_loads piece.converted_value = some (.obj entries))
    (hnoamb : ((jgetPy entries "category").pyTruthy && categoryArgTruthy cat) = false)
    (hsv : jget entries "score_value" = some sv)
    (hrat : jget entries "rationale" = some rat)
    (hfl : st = ScoreType.float_scale → python_float_parses sv.pyStr = true) :
    ∃ score : UnvalidatedScore,
      send_chat_target_once st ident response pid cat task = .ok score
      ∧ score.score_rationale = rat := by
  exact ⟨_, send_once_success st ident response pid cat task piece rest entries
    sv rat hpieces hparse hnoamb hsv hrat hfl, rfl⟩

theorem rationale_presence_not_validated_witness :
    json_loads empty_rationale_response_text
        = some (.obj (.cons "score_value" (.str "0.5")
            (.cons "rationale" (.str "") .nil)))
    ∧ (∃ score : UnvalidatedScore,
        send_chat_target_once ScoreType.float_scale []
          (respOf empty_rationale_response_text) "pid" none none = .ok score
        ∧ score.score_rationale = .str "") := by
  refine ⟨rfl, ?_⟩
  exact rationale_presence_not_validated ScoreType.float_scale []
    (respOf empty_rationale_response_text) "pid" none none
    ⟨"assistant", "", empty_rationale_response_text⟩ []
    (.cons "score_value" (.str "0.5") (.cons "rationale" (.str "") .nil))
    (.str "0.5") (.str "") rfl rfl rfl rfl rfl (fun _ => rfl)

theorem batch_executor_bounded_and_ordered_witness :
    1 ≤ 10
    ∧ (∀ c ∈ chunks 10 (List.range 25), c.length ≤ 10)
    ∧ ((List.range 10).reverse.Perm (List.range (List.range 10).length)
        ∧ gather_by_index
            (completion_events (fun n => n * n) (List.range 10) (List.range 10).reverse)
            (List.range 10).length
          = ((List.range 10).map (fun n => n * n)).map some)
    ∧ score_prompts_batch_async (fun n => [n, n + 100]) 10 (List.range 25)
        = ((List.range 25).map (fun n => [n, n + 100])).flatten := by
  have h := batch_executor_bounded_and_ordered (fun n : Nat => n * n)
    (fun n : Nat => [n, n + 100]) 10 (List.range 25) (by decide)
  exact ⟨by decide, h.1,
    ⟨by decide, h.2.1 (List.range 10) (List.range 10).reverse (by decide)⟩,
    h.2.2⟩

end PyritScorer
